import Mathlib

/-!
# Scotty3D `src/rays/bsdf.h`: the BSDF dispatcher

A shallow embedding of the header `src/rays/bsdf.h` (namespace `PT`).

* `Spectrum`, `float`, `Mat4`, `Samplers::Hemisphere::Uniform` come from headers
  that are not part of `src/`; they are type parameters (`Spectrum`, `F`, `Mat4`, `U`).
* `Mat4::rotate` is a parameter `rotate`.
* The member functions `sample` / `evaluate` of the nine variants are only declared
  in the header. Where the dispatcher calls them they are the fields of `VariantBodies`.
  Sampling may draw random numbers, so a variant's `sample` threads a random
  source `Rng` explicitly.
* `std::variant<...>` is the inductive `Variant`, its alternatives in the order of
  the declaration of `BSDF::underlying`; `std::visit` is a `match`.
-/

namespace PT

/-- Modelled from the spec: `Vec3` (reached through `lib/mathlib.h`, which is not in `src/`):
a vector of three scalar components `x`, `y`, `z`. -/
structure Vec3 (F : Type) where
  x : F
  y : F
  z : F
  deriving DecidableEq, Repr

/-- The struct `BSDF_Sample`. -/
structure BSDF_Sample (Spectrum F : Type) where
  emissive : Spectrum
  attenuation : Spectrum
  direction : Vec3 F
  pdf : F
  deriving DecidableEq, Repr

/-- The method `BSDF_Sample::transform`: `direction = T.rotate(direction);`.
The mutated object is the returned sample. -/
def BSDF_Sample.transform {Spectrum F Mat4 : Type} (rotate : Mat4 → Vec3 F → Vec3 F)
    (s : BSDF_Sample Spectrum F) (T : Mat4) : BSDF_Sample Spectrum F :=
  { s with direction := rotate T s.direction }

/-- The struct `BSDF_Lambertian`. -/
structure BSDF_Lambertian (Spectrum U : Type) where
  albedo : Spectrum
  sampler : U
  deriving DecidableEq, Repr

/-- The struct `BSDF_Mirror`. -/
structure BSDF_Mirror (Spectrum : Type) where
  reflectance : Spectrum
  deriving DecidableEq, Repr

/-- The struct `BSDF_Refract`. -/
structure BSDF_Refract (Spectrum F : Type) where
  transmittance : Spectrum
  index_of_refraction : F
  deriving DecidableEq, Repr

/-- The struct `BSDF_Glass`. -/
structure BSDF_Glass (Spectrum F : Type) where
  transmittance : Spectrum
  reflectance : Spectrum
  index_of_refraction : F
  deriving DecidableEq, Repr

/-- The struct `BSDF_Diffuse`. -/
structure BSDF_Diffuse (Spectrum U : Type) where
  radiance : Spectrum
  sampler : U
  deriving DecidableEq, Repr

/-- The struct `BSDF_Phong`. -/
structure BSDF_Phong (Spectrum F : Type) where
  albedo : Spectrum
  glossiness : F
  deriving DecidableEq, Repr

/-- The struct `BSDF_Blinn`. -/
structure BSDF_Blinn (Spectrum F : Type) where
  albedo : Spectrum
  glossiness : F
  deriving DecidableEq, Repr

/-- The struct `BSDF_Retro`. -/
structure BSDF_Retro (Spectrum F : Type) where
  reflectance : Spectrum
  glossiness : F
  deriving DecidableEq, Repr

/-- The struct `BSDF_Metal`. -/
structure BSDF_Metal (Spectrum F : Type) where
  reflectance : Spectrum
  glossiness : F
  deriving DecidableEq, Repr

/-- The type of `BSDF::underlying`:
`std::variant<BSDF_Lambertian, BSDF_Mirror, BSDF_Glass, BSDF_Diffuse, BSDF_Refract,
BSDF_Phong, BSDF_Blinn, BSDF_Retro, BSDF_Metal>`. -/
inductive Variant (Spectrum F U : Type) where
  | Lambertian (b : BSDF_Lambertian Spectrum U)
  | Mirror (b : BSDF_Mirror Spectrum)
  | Glass (b : BSDF_Glass Spectrum F)
  | Diffuse (b : BSDF_Diffuse Spectrum U)
  | Refract (b : BSDF_Refract Spectrum F)
  | Phong (b : BSDF_Phong Spectrum F)
  | Blinn (b : BSDF_Blinn Spectrum F)
  | Retro (b : BSDF_Retro Spectrum F)
  | Metal (b : BSDF_Metal Spectrum F)
  deriving DecidableEq, Repr

/-- The alternative a `std::variant` holds, as `std::variant::index()` numbers it:
the zero-based position in the template argument list. -/
def Variant.index {Spectrum F U : Type} : Variant Spectrum F U → Nat
  | .Lambertian _ => 0
  | .Mirror _ => 1
  | .Glass _ => 2
  | .Diffuse _ => 3
  | .Refract _ => 4
  | .Phong _ => 5
  | .Blinn _ => 6
  | .Retro _ => 7
  | .Metal _ => 8

/-- The class `BSDF`: its one data member is `underlying`. -/
structure BSDF (Spectrum F U : Type) where
  underlying : Variant Spectrum F U
  deriving DecidableEq, Repr

/-- The bodies of the member functions `sample` and `evaluate` of the nine variants.
The header declares them (`BSDF_Sample sample(Vec3 out_dir) const;`,
`Spectrum evaluate(Vec3 out_dir, Vec3 in_dir) const;`) and their definitions are outside
`src/`, so the dispatcher is embedded over arbitrary bodies. A `sample` body may consume
random numbers: it takes the random source and returns it with the sample. -/
structure VariantBodies (Spectrum F U Rng : Type) where
  Lambertian_sample : BSDF_Lambertian Spectrum U → Vec3 F → Rng → BSDF_Sample Spectrum F × Rng
  Lambertian_evaluate : BSDF_Lambertian Spectrum U → Vec3 F → Vec3 F → Spectrum
  Mirror_sample : BSDF_Mirror Spectrum → Vec3 F → Rng → BSDF_Sample Spectrum F × Rng
  Mirror_evaluate : BSDF_Mirror Spectrum → Vec3 F → Vec3 F → Spectrum
  Glass_sample : BSDF_Glass Spectrum F → Vec3 F → Rng → BSDF_Sample Spectrum F × Rng
  Glass_evaluate : BSDF_Glass Spectrum F → Vec3 F → Vec3 F → Spectrum
  Diffuse_sample : BSDF_Diffuse Spectrum U → Vec3 F → Rng → BSDF_Sample Spectrum F × Rng
  Diffuse_evaluate : BSDF_Diffuse Spectrum U → Vec3 F → Vec3 F → Spectrum
  Refract_sample : BSDF_Refract Spectrum F → Vec3 F → Rng → BSDF_Sample Spectrum F × Rng
  Refract_evaluate : BSDF_Refract Spectrum F → Vec3 F → Vec3 F → Spectrum
  Phong_sample : BSDF_Phong Spectrum F → Vec3 F → Rng → BSDF_Sample Spectrum F × Rng
  Phong_evaluate : BSDF_Phong Spectrum F → Vec3 F → Vec3 F → Spectrum
  Blinn_sample : BSDF_Blinn Spectrum F → Vec3 F → Rng → BSDF_Sample Spectrum F × Rng
  Blinn_evaluate : BSDF_Blinn Spectrum F → Vec3 F → Vec3 F → Spectrum
  Retro_sample : BSDF_Retro Spectrum F → Vec3 F → Rng → BSDF_Sample Spectrum F × Rng
  Retro_evaluate : BSDF_Retro Spectrum F → Vec3 F → Vec3 F → Spectrum
  Metal_sample : BSDF_Metal Spectrum F → Vec3 F → Rng → BSDF_Sample Spectrum F × Rng
  Metal_evaluate : BSDF_Metal Spectrum F → Vec3 F → Vec3 F → Spectrum

namespace BSDF

variable {Spectrum F U Rng : Type}

/-- The constructor `BSDF(BSDF_Lambertian&& b) : underlying(std::move(b))`. -/
def ofLambertian (b : BSDF_Lambertian Spectrum U) : BSDF Spectrum F U := ⟨.Lambertian b⟩

/-- The constructor `BSDF(BSDF_Mirror&& b) : underlying(std::move(b))`. -/
def ofMirror (b : BSDF_Mirror Spectrum) : BSDF Spectrum F U := ⟨.Mirror b⟩

/-- The constructor `BSDF(BSDF_Glass&& b) : underlying(std::move(b))`. -/
def ofGlass (b : BSDF_Glass Spectrum F) : BSDF Spectrum F U := ⟨.Glass b⟩

/-- The constructor `BSDF(BSDF_Diffuse&& b) : underlying(std::move(b))`. -/
def ofDiffuse (b : BSDF_Diffuse Spectrum U) : BSDF Spectrum F U := ⟨.Diffuse b⟩

/-- The constructor `BSDF(BSDF_Refract&& b) : underlying(std::move(b))`. -/
def ofRefract (b : BSDF_Refract Spectrum F) : BSDF Spectrum F U := ⟨.Refract b⟩

/-- The constructor `BSDF(BSDF_Phong&& b) : underlying(std::move(b))`. -/
def ofPhong (b : BSDF_Phong Spectrum F) : BSDF Spectrum F U := ⟨.Phong b⟩

/-- The constructor `BSDF(BSDF_Blinn&& b) : underlying(std::move(b))`. -/
def ofBlinn (b : BSDF_Blinn Spectrum F) : BSDF Spectrum F U := ⟨.Blinn b⟩

/-- The constructor `BSDF(BSDF_Retro&& b) : underlying(std::move(b))`. -/
def ofRetro (b : BSDF_Retro Spectrum F) : BSDF Spectrum F U := ⟨.Retro b⟩

/-- The constructor `BSDF(BSDF_Metal&& b) : underlying(std::move(b))`. -/
def ofMetal (b : BSDF_Metal Spectrum F) : BSDF Spectrum F U := ⟨.Metal b⟩

/-- The method `BSDF::is_discrete`: a `std::visit` with one lambda per alternative. -/
def is_discrete (self : BSDF Spectrum F U) : Bool :=
  match self.underlying with
  | .Lambertian _ => false
  | .Mirror _ => true
  | .Glass _ => true
  | .Diffuse _ => false
  | .Refract _ => true
  | .Phong _ => true
  | .Blinn _ => true
  | .Retro _ => true
  | .Metal _ => true

/-- The method `BSDF::is_sided`: a `std::visit` with one lambda per alternative. -/
def is_sided (self : BSDF Spectrum F U) : Bool :=
  match self.underlying with
  | .Lambertian _ => false
  | .Mirror _ => false
  | .Glass _ => true
  | .Diffuse _ => false
  | .Refract _ => true
  | .Phong _ => true
  | .Blinn _ => true
  | .Retro _ => true
  | .Metal _ => true

/-- The method `BSDF::sample`:
`std::visit(overloaded{[&out_dir](const auto& b) { return b.sample(out_dir); }}, underlying)`.
The generic lambda is instantiated once per alternative. -/
def sample (impl : VariantBodies Spectrum F U Rng) (self : BSDF Spectrum F U)
    (out_dir : Vec3 F) (rng : Rng) : BSDF_Sample Spectrum F × Rng :=
  match self.underlying with
  | .Lambertian b => impl.Lambertian_sample b out_dir rng
  | .Mirror b => impl.Mirror_sample b out_dir rng
  | .Glass b => impl.Glass_sample b out_dir rng
  | .Diffuse b => impl.Diffuse_sample b out_dir rng
  | .Refract b => impl.Refract_sample b out_dir rng
  | .Phong b => impl.Phong_sample b out_dir rng
  | .Blinn b => impl.Blinn_sample b out_dir rng
  | .Retro b => impl.Retro_sample b out_dir rng
  | .Metal b => impl.Metal_sample b out_dir rng

/-- The method `BSDF::evaluate`: `std::visit(overloaded{[&out_dir, &in_dir](const auto& b)
{ return b.evaluate(out_dir, in_dir); }}, underlying)`. -/
def evaluate (impl : VariantBodies Spectrum F U Rng) (self : BSDF Spectrum F U)
    (out_dir in_dir : Vec3 F) : Spectrum :=
  match self.underlying with
  | .Lambertian b => impl.Lambertian_evaluate b out_dir in_dir
  | .Mirror b => impl.Mirror_evaluate b out_dir in_dir
  | .Glass b => impl.Glass_evaluate b out_dir in_dir
  | .Diffuse b => impl.Diffuse_evaluate b out_dir in_dir
  | .Refract b => impl.Refract_evaluate b out_dir in_dir
  | .Phong b => impl.Phong_evaluate b out_dir in_dir
  | .Blinn b => impl.Blinn_evaluate b out_dir in_dir
  | .Retro b => impl.Retro_evaluate b out_dir in_dir
  | .Metal b => impl.Metal_evaluate b out_dir in_dir

end BSDF

/-- Modelled from the spec: the body of `reflect` (the header only declares
`Vec3 reflect(Vec3 dir);`). The mirror reflection of `dir` about the local normal, the
z-axis of the shading frame: `(-dir.x, -dir.y, dir.z)`. -/
def reflect {F : Type} [Neg F] (dir : Vec3 F) : Vec3 F :=
  ⟨-dir.x, -dir.y, dir.z⟩

/-- Modelled from the spec: the body of `BSDF_Mirror::sample` (the header only declares
it). It returns `direction = reflect(out_dir)`, `pdf = 1`, `attenuation = reflectance`.
The spec does not say what a mirror sample carries in `emissive`; that value is the
argument `emissive`. -/
def BSDF_Mirror.sample {Spectrum F : Type} [Neg F] [One F] (emissive : Spectrum)
    (self : BSDF_Mirror Spectrum) (out_dir : Vec3 F) : BSDF_Sample Spectrum F :=
  { emissive := emissive
    attenuation := self.reflectance
    direction := reflect out_dir
    pdf := 1 }

/-! ## Theorems -/

section Theorems

variable {Spectrum F U Rng Mat4 : Type}

/-- C1: `is_discrete()` of a dispatcher is fixed by the variant it was built from: false
for a `BSDF_Lambertian` or a `BSDF_Diffuse`, true for a `BSDF_Mirror`, `BSDF_Glass`,
`BSDF_Refract`, `BSDF_Phong`, `BSDF_Blinn`, `BSDF_Retro` or `BSDF_Metal`. -/
theorem BSDF.is_discrete_table :
    (∀ v : BSDF_Lambertian Spectrum U, (BSDF.ofLambertian v : BSDF Spectrum F U).is_discrete = false) ∧
    (∀ v : BSDF_Mirror Spectrum, (BSDF.ofMirror v : BSDF Spectrum F U).is_discrete = true) ∧
    (∀ v : BSDF_Glass Spectrum F, (BSDF.ofGlass v : BSDF Spectrum F U).is_discrete = true) ∧
    (∀ v : BSDF_Diffuse Spectrum U, (BSDF.ofDiffuse v : BSDF Spectrum F U).is_discrete = false) ∧
    (∀ v : BSDF_Refract Spectrum F, (BSDF.ofRefract v : BSDF Spectrum F U).is_discrete = true) ∧
    (∀ v : BSDF_Phong Spectrum F, (BSDF.ofPhong v : BSDF Spectrum F U).is_discrete = true) ∧
    (∀ v : BSDF_Blinn Spectrum F, (BSDF.ofBlinn v : BSDF Spectrum F U).is_discrete = true) ∧
    (∀ v : BSDF_Retro Spectrum F, (BSDF.ofRetro v : BSDF Spectrum F U).is_discrete = true) ∧
    (∀ v : BSDF_Metal Spectrum F, (BSDF.ofMetal v : BSDF Spectrum F U).is_discrete = true) := by
  refine ⟨?_, ?_, ?_, ?_, ?_, ?_, ?_, ?_, ?_⟩
  all_goals
    intros
    rfl

/-- C2: `is_sided()` of a dispatcher is fixed by the variant it was built from: false for
a `BSDF_Lambertian`, `BSDF_Mirror` or `BSDF_Diffuse`, true for a `BSDF_Glass`,
`BSDF_Refract`, `BSDF_Phong`, `BSDF_Blinn`, `BSDF_Retro` or `BSDF_Metal`. -/
theorem BSDF.is_sided_table :
    (∀ v : BSDF_Lambertian Spectrum U, (BSDF.ofLambertian v : BSDF Spectrum F U).is_sided = false) ∧
    (∀ v : BSDF_Mirror Spectrum, (BSDF.ofMirror v : BSDF Spectrum F U).is_sided = false) ∧
    (∀ v : BSDF_Glass Spectrum F, (BSDF.ofGlass v : BSDF Spectrum F U).is_sided = true) ∧
    (∀ v : BSDF_Diffuse Spectrum U, (BSDF.ofDiffuse v : BSDF Spectrum F U).is_sided = false) ∧
    (∀ v : BSDF_Refract Spectrum F, (BSDF.ofRefract v : BSDF Spectrum F U).is_sided = true) ∧
    (∀ v : BSDF_Phong Spectrum F, (BSDF.ofPhong v : BSDF Spectrum F U).is_sided = true) ∧
    (∀ v : BSDF_Blinn Spectrum F, (BSDF.ofBlinn v : BSDF Spectrum F U).is_sided = true) ∧
    (∀ v : BSDF_Retro Spectrum F, (BSDF.ofRetro v : BSDF Spectrum F U).is_sided = true) ∧
    (∀ v : BSDF_Metal Spectrum F, (BSDF.ofMetal v : BSDF Spectrum F U).is_sided = true) := by
  refine ⟨?_, ?_, ?_, ?_, ?_, ?_, ?_, ?_, ?_⟩
  all_goals
    intros
    rfl

/-- C3: `is_discrete` and `is_sided` are parameter-independent: two dispatchers that hold
the same alternative of the variant (equal `index()`), whatever the parameters stored in
it, agree on `is_discrete()` and agree on `is_sided()`. -/
theorem BSDF.classification_parameter_independent (b₁ b₂ : BSDF Spectrum F U)
    (h : b₁.underlying.index = b₂.underlying.index) :
    b₁.is_discrete = b₂.is_discrete ∧ b₁.is_sided = b₂.is_sided := by
  obtain ⟨u₁⟩ := b₁
  obtain ⟨u₂⟩ := b₂
  cases u₁ <;> cases u₂ <;> first
    | exact ⟨rfl, rfl⟩
    | simp [Variant.index] at h

/-- C4: `s.transform(T)` leaves `pdf`, `attenuation` and `emissive` as they were, whatever
`Mat4::rotate` computes; `direction` is the only field it writes. -/
theorem BSDF_Sample.transform_frame (rotate : Mat4 → Vec3 F → Vec3 F)
    (s : BSDF_Sample Spectrum F) (T : Mat4) :
    (s.transform rotate T).pdf = s.pdf ∧
    (s.transform rotate T).attenuation = s.attenuation ∧
    (s.transform rotate T).emissive = s.emissive :=
  ⟨rfl, rfl, rfl⟩

/-- C5: after `s.transform(T)` the direction field is `T.rotate(d)`, where `d` is the
direction before the call: `Mat4::rotate` of `T` applied once to `d`, nothing else. -/
theorem BSDF_Sample.transform_direction (rotate : Mat4 → Vec3 F → Vec3 F)
    (s : BSDF_Sample Spectrum F) (T : Mat4) :
    (s.transform rotate T).direction = rotate T s.direction :=
  rfl

/-- C6: for each of the nine variant types and every value `v` of it, the dispatcher built
from `v` forwards `sample`: `BSDF(v).sample(out_dir)` is `v.sample(out_dir)`, the whole
returned `BSDF_Sample` (and the random source the body leaves behind) unmodified,
whatever the bodies of the variants are. -/
theorem BSDF.sample_forwards (impl : VariantBodies Spectrum F U Rng) :
    (∀ (v : BSDF_Lambertian Spectrum U) (out_dir : Vec3 F) (rng : Rng),
      (BSDF.ofLambertian v : BSDF Spectrum F U).sample impl out_dir rng = impl.Lambertian_sample v out_dir rng) ∧
    (∀ (v : BSDF_Mirror Spectrum) (out_dir : Vec3 F) (rng : Rng),
      (BSDF.ofMirror v : BSDF Spectrum F U).sample impl out_dir rng = impl.Mirror_sample v out_dir rng) ∧
    (∀ (v : BSDF_Glass Spectrum F) (out_dir : Vec3 F) (rng : Rng),
      (BSDF.ofGlass v : BSDF Spectrum F U).sample impl out_dir rng = impl.Glass_sample v out_dir rng) ∧
    (∀ (v : BSDF_Diffuse Spectrum U) (out_dir : Vec3 F) (rng : Rng),
      (BSDF.ofDiffuse v : BSDF Spectrum F U).sample impl out_dir rng = impl.Diffuse_sample v out_dir rng) ∧
    (∀ (v : BSDF_Refract Spectrum F) (out_dir : Vec3 F) (rng : Rng),
      (BSDF.ofRefract v : BSDF Spectrum F U).sample impl out_dir rng = impl.Refract_sample v out_dir rng) ∧
    (∀ (v : BSDF_Phong Spectrum F) (out_dir : Vec3 F) (rng : Rng),
      (BSDF.ofPhong v : BSDF Spectrum F U).sample impl out_dir rng = impl.Phong_sample v out_dir rng) ∧
    (∀ (v : BSDF_Blinn Spectrum F) (out_dir : Vec3 F) (rng : Rng),
      (BSDF.ofBlinn v : BSDF Spectrum F U).sample impl out_dir rng = impl.Blinn_sample v out_dir rng) ∧
    (∀ (v : BSDF_Retro Spectrum F) (out_dir : Vec3 F) (rng : Rng),
      (BSDF.ofRetro v : BSDF Spectrum F U).sample impl out_dir rng = impl.Retro_sample v out_dir rng) ∧
    (∀ (v : BSDF_Metal Spectrum F) (out_dir : Vec3 F) (rng : Rng),
      (BSDF.ofMetal v : BSDF Spectrum F U).sample impl out_dir rng = impl.Metal_sample v out_dir rng) := by
  refine ⟨?_, ?_, ?_, ?_, ?_, ?_, ?_, ?_, ?_⟩
  all_goals
    intros
    rfl

/-- C7: for each of the nine variant types and every value `v` of it, the dispatcher built
from `v` forwards `evaluate`: `BSDF(v).evaluate(out_dir, in_dir)` is
`v.evaluate(out_dir, in_dir)`, the two directions in the same order, whatever the bodies
of the variants are. -/
theorem BSDF.evaluate_forwards (impl : VariantBodies Spectrum F U Rng) :
    (∀ (v : BSDF_Lambertian Spectrum U) (out_dir in_dir : Vec3 F),
      (BSDF.ofLambertian v : BSDF Spectrum F U).evaluate impl out_dir in_dir =
        impl.Lambertian_evaluate v out_dir in_dir) ∧
    (∀ (v : BSDF_Mirror Spectrum) (out_dir in_dir : Vec3 F),
      (BSDF.ofMirror v : BSDF Spectrum F U).evaluate impl out_dir in_dir =
        impl.Mirror_evaluate v out_dir in_dir) ∧
    (∀ (v : BSDF_Glass Spectrum F) (out_dir in_dir : Vec3 F),
      (BSDF.ofGlass v : BSDF Spectrum F U).evaluate impl out_dir in_dir =
        impl.Glass_evaluate v out_dir in_dir) ∧
    (∀ (v : BSDF_Diffuse Spectrum U) (out_dir in_dir : Vec3 F),
      (BSDF.ofDiffuse v : BSDF Spectrum F U).evaluate impl out_dir in_dir =
        impl.Diffuse_evaluate v out_dir in_dir) ∧
    (∀ (v : BSDF_Refract Spectrum F) (out_dir in_dir : Vec3 F),
      (BSDF.ofRefract v : BSDF Spectrum F U).evaluate impl out_dir in_dir =
        impl.Refract_evaluate v out_dir in_dir) ∧
    (∀ (v : BSDF_Phong Spectrum F) (out_dir in_dir : Vec3 F),
      (BSDF.ofPhong v : BSDF Spectrum F U).evaluate impl out_dir in_dir =
        impl.Phong_evaluate v out_dir in_dir) ∧
    (∀ (v : BSDF_Blinn Spectrum F) (out_dir in_dir : Vec3 F),
      (BSDF.ofBlinn v : BSDF Spectrum F U).evaluate impl out_dir in_dir =
        impl.Blinn_evaluate v out_dir in_dir) ∧
    (∀ (v : BSDF_Retro Spectrum F) (out_dir in_dir : Vec3 F),
      (BSDF.ofRetro v : BSDF Spectrum F U).evaluate impl out_dir in_dir =
        impl.Retro_evaluate v out_dir in_dir) ∧
    (∀ (v : BSDF_Metal Spectrum F) (out_dir in_dir : Vec3 F),
      (BSDF.ofMetal v : BSDF Spectrum F U).evaluate impl out_dir in_dir =
        impl.Metal_evaluate v out_dir in_dir) := by
  refine ⟨?_, ?_, ?_, ?_, ?_, ?_, ?_, ?_, ?_⟩
  all_goals
    intros
    rfl

/-- C8: `reflect(dir)` is `(-dir.x, -dir.y, dir.z)` for every vector `dir`: the x and y
components are negated and the z component is kept. -/
theorem reflect_components [Neg F] (dir : Vec3 F) :
    reflect dir = ⟨-dir.x, -dir.y, dir.z⟩ ∧
    (reflect dir).x = -dir.x ∧ (reflect dir).y = -dir.y ∧ (reflect dir).z = dir.z :=
  ⟨rfl, rfl, rfl, rfl⟩

/-- C9: for every `BSDF_Mirror` `m` and every `out_dir` (unit or not),
`m.sample(out_dir).direction` is `reflect(out_dir)`. -/
theorem BSDF_Mirror.sample_direction [Neg F] [One F] (emissive : Spectrum)
    (m : BSDF_Mirror Spectrum) (out_dir : Vec3 F) :
    (m.sample emissive out_dir).direction = reflect out_dir :=
  rfl

/-- C10: a dispatcher with `is_sided()` true has `is_discrete()` true; the converse fails,
since every dispatcher holding a `BSDF_Mirror` is discrete and not sided; a dispatcher
that is not discrete holds a `BSDF_Lambertian` or a `BSDF_Diffuse` (alternatives 0 and 3)
and is not sided; every dispatcher built from a `BSDF_Lambertian` is not discrete and not
sided, and so is every dispatcher built from a `BSDF_Diffuse`; and a dispatcher holding
alternative 0 or 3 is not discrete, so these two are exactly the non-discrete variants. -/
theorem BSDF.sided_implies_discrete :
    (∀ b : BSDF Spectrum F U, b.is_sided = true → b.is_discrete = true) ∧
    (∀ m : BSDF_Mirror Spectrum, (BSDF.ofMirror m : BSDF Spectrum F U).is_discrete = true ∧
      (BSDF.ofMirror m : BSDF Spectrum F U).is_sided = false) ∧
    (∀ b : BSDF Spectrum F U, b.is_discrete = false →
      (b.underlying.index = 0 ∨ b.underlying.index = 3) ∧ b.is_sided = false) ∧
    (∀ v : BSDF_Lambertian Spectrum U,
      (BSDF.ofLambertian v : BSDF Spectrum F U).is_discrete = false ∧
      (BSDF.ofLambertian v : BSDF Spectrum F U).is_sided = false) ∧
    (∀ v : BSDF_Diffuse Spectrum U,
      (BSDF.ofDiffuse v : BSDF Spectrum F U).is_discrete = false ∧
      (BSDF.ofDiffuse v : BSDF Spectrum F U).is_sided = false) ∧
    (∀ b : BSDF Spectrum F U, (b.underlying.index = 0 ∨ b.underlying.index = 3) →
      b.is_discrete = false ∧ b.is_sided = false) := by
  refine ⟨?_, fun _ => ⟨rfl, rfl⟩, ?_, fun _ => ⟨rfl, rfl⟩, fun _ => ⟨rfl, rfl⟩, ?_⟩
  · rintro ⟨u⟩ h
    cases u <;> first
      | rfl
      | exact Bool.noConfusion h
  · rintro ⟨u⟩ h
    cases u <;> first
      | exact ⟨Or.inl rfl, rfl⟩
      | exact ⟨Or.inr rfl, rfl⟩
      | exact Bool.noConfusion h
  · rintro ⟨u⟩ h
    cases u <;> first
      | exact ⟨rfl, rfl⟩
      | simp [Variant.index] at h

/-- Witness for C3: a clear-glass and a tinted-glass dispatcher, different in every
parameter, hold the same alternative and get the same classification. -/
theorem BSDF.classification_parameter_independent_witness :
    (BSDF.ofGlass ⟨1, 2, 3⟩ : BSDF Nat Int Unit).underlying.index =
      (BSDF.ofGlass ⟨40, 50, -6⟩ : BSDF Nat Int Unit).underlying.index ∧
    ((BSDF.ofGlass ⟨1, 2, 3⟩ : BSDF Nat Int Unit).is_discrete =
      (BSDF.ofGlass ⟨40, 50, -6⟩ : BSDF Nat Int Unit).is_discrete ∧
     (BSDF.ofGlass ⟨1, 2, 3⟩ : BSDF Nat Int Unit).is_sided =
      (BSDF.ofGlass ⟨40, 50, -6⟩ : BSDF Nat Int Unit).is_sided) :=
  ⟨rfl, BSDF.classification_parameter_independent _ _ rfl⟩

/-- Witness for C10: a sided dispatcher (holding a `BSDF_Phong`) is discrete; a
non-discrete dispatcher (holding a `BSDF_Lambertian`) holds alternative 0 or 3 and is not
sided; and a dispatcher holding alternative 3 (a `BSDF_Diffuse`) is neither discrete nor
sided. -/
theorem BSDF.sided_implies_discrete_witness :
    ((BSDF.ofPhong ⟨7, 32⟩ : BSDF Nat Int Unit).is_sided = true ∧
     (BSDF.ofPhong ⟨7, 32⟩ : BSDF Nat Int Unit).is_discrete = true) ∧
    ((BSDF.ofLambertian ⟨5, ()⟩ : BSDF Nat Int Unit).is_discrete = false ∧
     (((BSDF.ofLambertian ⟨5, ()⟩ : BSDF Nat Int Unit).underlying.index = 0 ∨
       (BSDF.ofLambertian ⟨5, ()⟩ : BSDF Nat Int Unit).underlying.index = 3) ∧
      (BSDF.ofLambertian ⟨5, ()⟩ : BSDF Nat Int Unit).is_sided = false)) ∧
    (((BSDF.ofDiffuse ⟨9, ()⟩ : BSDF Nat Int Unit).underlying.index = 0 ∨
      (BSDF.ofDiffuse ⟨9, ()⟩ : BSDF Nat Int Unit).underlying.index = 3) ∧
     ((BSDF.ofDiffuse ⟨9, ()⟩ : BSDF Nat Int Unit).is_discrete = false ∧
      (BSDF.ofDiffuse ⟨9, ()⟩ : BSDF Nat Int Unit).is_sided = false)) :=
  ⟨⟨rfl, BSDF.sided_implies_discrete.1 _ rfl⟩,
   ⟨rfl, BSDF.sided_implies_discrete.2.2.1 _ rfl⟩,
   ⟨Or.inr rfl, BSDF.sided_implies_discrete.2.2.2.2.2 _ (Or.inr rfl)⟩⟩

end Theorems

end PT
